import Mathlib

/-!
Verification of the fetch-classify-aggregate pipeline of the news sentiment
dashboard (src/streamlit_app.py).  The pipeline `fetch_and_analyze_news`
issues one HTTP GET, parses a JSON envelope, filters out articles without a
title, scores each surviving article with an external polarity scorer,
buckets the score into a label, and collects the results in order.

The embedding models the Python semantics that matter here:

* a JSON string field of an article dictionary is absent (`Option.none`),
  present but JSON null (`PyStrVal.pyNone`, i.e. Python `None`), or a string;
* `dict.get(key, default)` returns the default only when the key is absent,
  so a present-but-null field yields Python `None`;
* f-string interpolation renders `None` as the literal text "None";
* calling `.get` on `None` raises an `AttributeError`, which in the source
  happens outside the try/except and therefore propagates out of the
  function; the whole pipeline is thus `Except`-valued;
* polarity scores are modelled as rationals, the external scorer
  (TextBlob) as an explicit function parameter `score : String → ℚ`;
* Python `round(x, 3)` is modelled as decimal rounding half-to-even
  at 3 decimal places.
-/

/-- A Python value obtained from a JSON string field: either Python `None`
(the field was JSON null) or a Python string. -/
inductive PyStrVal where
  | pyNone : PyStrVal
  | pyStr (s : String) : PyStrVal
deriving DecidableEq

/-- Python truthiness of such a value: `None` and the empty string are falsy. -/
def pyTruthy : PyStrVal → Bool
  | .pyNone => false
  | .pyStr s => !(s == "")

/-- f-string interpolation: Python `None` renders as the text "None". -/
def pyFormat : PyStrVal → String
  | .pyNone => "None"
  | .pyStr s => s

/-- Remove leading and trailing whitespace characters from a character list. -/
def stripChars (l : List Char) : List Char :=
  ((l.dropWhile Char.isWhitespace).reverse.dropWhile Char.isWhitespace).reverse

/-- Python `str.strip()`: the string with leading and trailing whitespace
removed. -/
def pyStrip (s : String) : String :=
  ⟨stripChars s.data⟩

/-- Python `article.get(key, default)` for a string-valued field: the default
is used only when the key is absent; a present-but-null field yields `None`. -/
def dictGetStr (field : Option PyStrVal) (default : String) : PyStrVal :=
  match field with
  | none => .pyStr default
  | some v => v

/-- The value of an article's "source" field: JSON null, or an object with an
optional "name" string field. -/
inductive PySourceVal where
  | pyNone : PySourceVal
  | obj (name : Option PyStrVal) : PySourceVal
deriving DecidableEq

/-- Python `article.get("source", {})`: an absent field yields the empty
dict (an object with no "name"). -/
def pyGetSource (field : Option PySourceVal) : PySourceVal :=
  match field with
  | none => .obj none
  | some v => v

/-- Python `(...).get("name", "Unknown")` on the source value: calling `.get`
on `None` raises an AttributeError, modelled as `Except.error`. -/
def pyGetName : PySourceVal → Except String PyStrVal
  | .pyNone => .error "AttributeError: NoneType object has no attribute get"
  | .obj name => .ok (dictGetStr name "Unknown")

/-- A raw article record from the API response.  Each field is absent,
JSON null, or a value (src/streamlit_app.py lines 37-40 read exactly
these four fields). -/
structure RawArticle where
  title : Option PyStrVal
  description : Option PyStrVal
  url : Option PyStrVal
  source : Option PySourceVal
deriving DecidableEq

/-- One analyzed article, the dict appended at lines 55-61 of the source. -/
structure AnalyzedArticle where
  title : PyStrVal
  source : PyStrVal
  sentiment_score : ℚ
  sentiment_label : String
  url : PyStrVal
deriving DecidableEq

/-- Decimal rounding half-to-even of a rational to an integer, the tie
behaviour of Python round. -/
def roundHalfEven (q : ℚ) : ℤ :=
  let f := ⌊q⌋
  let r := q - f
  if r < 1/2 then f
  else if 1/2 < r then f + 1
  else if f % 2 = 0 then f else f + 1

/-- Python `round(q, 3)`: round to 3 decimal places. -/
def round3 (q : ℚ) : ℚ :=
  (roundHalfEven (q * 1000) : ℚ) / 1000

/-- The bucketing of a polarity into a label, lines 48-53 of the source. -/
def sentimentLabel (polarity : ℚ) : String :=
  if polarity > 1/10 then "Positive"
  else if polarity < -(1/10) then "Negative"
  else "Neutral"

/-- The text handed to the polarity scorer for an article: the f-string
`title description` joined by a single space, stripped of leading and
trailing whitespace (line 45 of the source). -/
def classificationText (article : RawArticle) : String :=
  pyStrip (pyFormat (dictGetStr article.title "") ++ " " ++
    pyFormat (dictGetStr article.description ""))

/-- The analyzed record produced for one raw article, assuming field
extraction did not raise (lines 37-61 of the source).  Used to state
order-preservation; on a null source field (where the real code raises)
the source name is left as Python None. -/
def analyzeArticle (score : String → ℚ) (article : RawArticle) : AnalyzedArticle :=
  let title := dictGetStr article.title ""
  let url := dictGetStr article.url ""
  let source := match pyGetSource article.source with
    | .pyNone => .pyNone
    | .obj name => dictGetStr name "Unknown"
  let polarity := score (classificationText article)
  { title := title
    source := source
    sentiment_score := round3 polarity
    sentiment_label := sentimentLabel polarity
    url := url }

/-- Truthiness of a raw article's extracted title: true exactly when the
title field is present, not null, and a non-empty string. -/
def rawTitleTruthy (a : RawArticle) : Bool :=
  pyTruthy (dictGetStr a.title "")

/-- Truthiness of an analyzed article's stored title. -/
def titleTruthy (r : AnalyzedArticle) : Bool :=
  pyTruthy r.title

/-- One iteration of the per-article loop (lines 36-61 of the source):
field extraction (the source-name extraction can raise, and it runs before
the title filter), then the title filter, then scoring and bucketing.
`Except.error` models an uncaught Python exception, `Except.ok none` the
`continue` for a missing or empty title. -/
def processArticle (score : String → ℚ) (article : RawArticle) :
    Except String (Option AnalyzedArticle) :=
  let title := dictGetStr article.title ""
  let description := dictGetStr article.description ""
  let url := dictGetStr article.url ""
  match pyGetName (pyGetSource article.source) with
  | .error e => .error e
  | .ok source =>
    if pyTruthy title = false then .ok none
    else
      let text := pyStrip (pyFormat title ++ " " ++ pyFormat description)
      let polarity := score text
      let sentiment := sentimentLabel polarity
      .ok (some
        { title := title
          source := source
          sentiment_score := round3 polarity
          sentiment_label := sentiment
          url := url })

/-- The per-article loop over the whole article list, accumulating the
analyzed articles in order; an exception aborts the whole run. -/
def processAll (score : String → ℚ) :
    List RawArticle → Except String (List AnalyzedArticle)
  | [] => .ok []
  | a :: rest =>
    match processArticle score a with
    | .error e => .error e
    | .ok none => processAll score rest
    | .ok (some r) =>
      match processAll score rest with
      | .error e => .error e
      | .ok l => .ok (r :: l)

/-- The parsed JSON envelope of the API response: the "articles" list field,
possibly absent. -/
structure GNewsData where
  articles : Option (List RawArticle)
deriving DecidableEq

/-- The observable outcome of the fetch phase (lines 22-24 of the source):
either some requests exception with its message, or parsed JSON data. -/
inductive FetchOutcome where
  | exc (msg : String) : FetchOutcome
  | ok (data : GNewsData) : FetchOutcome
deriving DecidableEq

/-- A user-facing diagnostic: st.warning or st.error. -/
inductive Diag where
  | warning (msg : String) : Diag
  | error (msg : String) : Diag
deriving DecidableEq

/-- The result of one pipeline run: the ResultSet and the diagnostic
emitted, if any. -/
structure PipelineOutput where
  resultSet : List AnalyzedArticle
  diag : Option Diag
deriving DecidableEq

/-- The fetch-classify-aggregate pipeline, `fetch_and_analyze_news`
(lines 18-63 of the source), given the outcome of the HTTP fetch and the
external polarity scorer.  The try/except covers only the fetch phase and
the empty-articles check; an exception in the per-article loop propagates
(`Except.error`). -/
def fetch_and_analyze_news (score : String → ℚ) (resp : FetchOutcome) :
    Except String PipelineOutput :=
  match resp with
  | .exc e => .ok { resultSet := [], diag := some (.error ("Error fetching news: " ++ e)) }
  | .ok data =>
    let articles := data.articles.getD []
    if articles.isEmpty then
      .ok { resultSet := [], diag := some (.warning "No articles found for this query.") }
    else
      match processAll score articles with
      | .error e => .error e
      | .ok l => .ok { resultSet := l, diag := none }

/-- Modelled from the spec: the whole-result memoization provided by the
caching decorator on the pipeline (line 17 of the source, ttl = 600), which
is library behaviour not present in src.  The cache is keyed by the
(credential, query) pair; a fresh entry (stored less than `cacheTTL`
seconds ago) is returned without running the pipeline, otherwise the
pipeline runs and its result is stored.  `requested` records whether this
call issued a network request. -/
def cacheTTL : Nat := 600

/-- The result of one cached invocation: the returned value, the updated
cache entries, and whether a network request was issued. -/
structure CacheCall (α : Type) where
  output : α
  entries : List ((String × String) × α × Nat)
  requested : Bool

/-- Modelled from the spec: one invocation of the cached pipeline at time
`now` (seconds) with key (credential, query).  A hit on a fresh entry
returns the stored value without a request; otherwise `run` is invoked and
the result stored at time `now`. -/
def cachedFetch {α : Type} (run : String × String → α)
    (entries : List ((String × String) × α × Nat)) (now : Nat)
    (key : String × String) : CacheCall α :=
  match entries.find? (fun e => decide (e.1 = key)) with
  | some e =>
    if now < e.2.2 + cacheTTL then ⟨e.2.1, entries, false⟩
    else ⟨run key, (key, run key, now) :: entries, true⟩
  | none => ⟨run key, (key, run key, now) :: entries, true⟩

/-! ## Helper lemmas -/

/-- Projection of the analyzed record: the stored title is the extracted
title value. -/
theorem analyzeArticle_title (score : String → ℚ) (a : RawArticle) :
    (analyzeArticle score a).title = dictGetStr a.title "" := rfl

/-- Truthiness of the analyzed record's title coincides with truthiness of
the raw title. -/
theorem titleTruthy_analyzeArticle (score : String → ℚ) (a : RawArticle) :
    titleTruthy (analyzeArticle score a) = rawTitleTruthy a := rfl

/-- A successful, non-skipped iteration yields exactly the analyzed record,
and only for a truthy title. -/
theorem processArticle_eq_ok_some {score : String → ℚ} {a : RawArticle}
    {r : AnalyzedArticle} (h : processArticle score a = .ok (some r)) :
    r = analyzeArticle score a ∧ rawTitleTruthy a = true := by
  unfold processArticle at h
  rcases hs : pyGetSource a.source with _ | name
  · rw [hs] at h
    simp [pyGetName] at h
  · rw [hs] at h
    simp only [pyGetName] at h
    split_ifs at h with ht
    · simp at h
    · simp only [Except.ok.injEq, Option.some.injEq] at h
      have ht' : rawTitleTruthy a = true := by
        simpa [rawTitleTruthy] using ht
      refine ⟨?_, ht'⟩
      rw [← h]
      unfold analyzeArticle classificationText
      rw [hs]

/-- A skipped iteration happens only for a non-truthy title. -/
theorem processArticle_eq_ok_none {score : String → ℚ} {a : RawArticle}
    (h : processArticle score a = .ok none) :
    rawTitleTruthy a = false := by
  unfold processArticle at h
  rcases hs : pyGetSource a.source with _ | name
  · rw [hs] at h
    simp [pyGetName] at h
  · rw [hs] at h
    simp only [pyGetName] at h
    split_ifs at h with ht
    · simpa [rawTitleTruthy] using ht
    · simp at h

/-- A successful loop run produces exactly the analyzed records of the
title-filtered input, in order. -/
theorem processAll_eq_ok {score : String → ℚ} {arts : List RawArticle}
    {l : List AnalyzedArticle} (h : processAll score arts = .ok l) :
    l = (arts.filter rawTitleTruthy).map (analyzeArticle score) := by
  induction arts generalizing l with
  | nil =>
    simp only [processAll, Except.ok.injEq] at h
    simp [← h]
  | cons a rest ih =>
    rw [processAll] at h
    rcases hp : processArticle score a with e | o
    · rw [hp] at h
      cases h
    · rw [hp] at h
      rcases o with _ | r
      · have hf := processArticle_eq_ok_none hp
        rw [List.filter_cons, hf]
        simpa using ih h
      · rcases hq : processAll score rest with e | l2
        · rw [hq] at h
          cases h
        · rw [hq] at h
          simp only [Except.ok.injEq] at h
          obtain ⟨hr, htt⟩ := processArticle_eq_ok_some hp
          rw [List.filter_cons, htt]
          simp only [List.map_cons, ← h, hr]
          exact congrArg _ (ih hq)

/-- A successful pipeline run on parsed data yields the analyzed records of
the title-filtered article list, in order, with no diagnostic possible on
that branch other than the empty-articles warning. -/
theorem fetch_ok_resultSet {score : String → ℚ} {data : GNewsData}
    {out : PipelineOutput}
    (h : fetch_and_analyze_news score (.ok data) = .ok out) :
    out.resultSet =
      ((data.articles.getD []).filter rawTitleTruthy).map (analyzeArticle score) := by
  simp only [fetch_and_analyze_news] at h
  by_cases he : (data.articles.getD []).isEmpty
  · rw [if_pos he] at h
    simp only [Except.ok.injEq] at h
    have hnil : data.articles.getD [] = [] := by
      simpa using he
    rw [hnil, ← h]
    simp
  · rw [if_neg he] at h
    rcases hq : processAll score (data.articles.getD []) with e | l
    · rw [hq] at h
      cases h
    · rw [hq] at h
      simp only [Except.ok.injEq] at h
      rw [← h]
      exact processAll_eq_ok hq

/-! ## Concrete inputs used by witnesses and counterexamples -/

/-- A scorer returning the constant polarity 0.1004 (= 251/2500), a value
strictly above the 0.1 threshold whose 3-decimal rounding is exactly 0.1. -/
def cScoreA : String → ℚ := fun _ => 251/2500

/-- An article with title "headline" and no other fields. -/
def cArticleA : RawArticle := ⟨some (.pyStr "headline"), none, none, none⟩

/-- A constant-zero scorer. -/
def wScore : String → ℚ := fun _ => 0

/-- An article with all four fields present as strings. -/
def wArticleT : RawArticle :=
  ⟨some (.pyStr "Rain"), some (.pyStr "Heavy rain."),
    some (.pyStr "https://example.test/a"), some (.obj (some (.pyStr "BBC")))⟩

/-- An article with an empty title, to be filtered out. -/
def wArticleN : RawArticle := ⟨some (.pyStr ""), none, none, none⟩

/-- A parsed response holding one titled and one untitled article. -/
def wData : GNewsData := ⟨some [wArticleT, wArticleN]⟩

/-- An article whose "source" field is present but JSON null. -/
def cArticleNullSource : RawArticle :=
  ⟨some (.pyStr "hello"), none, none, some .pyNone⟩

/-- An article whose "description" field is present but JSON null. -/
def cArticleNullDesc : RawArticle :=
  ⟨some (.pyStr "Breaking News"), some .pyNone, none, none⟩

/-- A scorer that recognises the text produced for `cArticleNullDesc`. -/
def cScoreB : String → ℚ :=
  fun s => if s = "Breaking News None" then 1/2 else 0

/-- A trivial pipeline stand-in for cache witnesses. -/
def wRun : String × String → PipelineOutput := fun _ => ⟨[], none⟩

/-! ## Claim theorems -/

/-- C1: for every polarity score p, the assigned label is "Positive" iff
p > 0.1, "Negative" iff p < -0.1, and "Neutral" iff -0.1 ≤ p ≤ 0.1; the
boundary values 0.1 and -0.1 both yield "Neutral". -/
theorem c1_label_thresholds (p : ℚ) :
    (sentimentLabel p = "Positive" ↔ 1/10 < p) ∧
    (sentimentLabel p = "Negative" ↔ p < -(1/10)) ∧
    (sentimentLabel p = "Neutral" ↔ -(1/10) ≤ p ∧ p ≤ 1/10) ∧
    sentimentLabel (1/10) = "Neutral" ∧
    sentimentLabel (-(1/10)) = "Neutral" := by
  unfold sentimentLabel
  refine ⟨?_, ?_, ?_, by norm_num, by norm_num⟩ <;>
    split_ifs with h1 h2 <;> simp_all <;> try linarith

/-- C2 counterexample: with a scorer returning 0.1004 the pipeline stores
the rounded score 0.1 but labels the article "Positive", while bucketing
the rounded score would give "Neutral": the thresholds are compared against
the raw polarity, not the rounded one. -/
theorem c2_counterexample :
    fetch_and_analyze_news cScoreA (.ok ⟨some [cArticleA]⟩) =
      .ok ⟨[⟨.pyStr "headline", .pyStr "Unknown", round3 (251/2500),
        sentimentLabel (251/2500), .pyStr ""⟩], none⟩ ∧
    round3 (251/2500) = 1/10 ∧
    sentimentLabel (251/2500) = "Positive" ∧
    sentimentLabel (round3 (251/2500)) = "Neutral" := by
  refine ⟨rfl, by norm_num [round3, roundHalfEven], by norm_num [sentimentLabel], ?_⟩
  norm_num [round3, roundHalfEven, sentimentLabel]

/-- C2 (amended): for every processed article, the stored sentiment score
is the polarity rounded to 3 decimal places, but the label is obtained by
bucketing the raw, unrounded polarity. -/
theorem c2_rounding_and_bucketing (score : String → ℚ) (a : RawArticle)
    (r : AnalyzedArticle) (h : processArticle score a = .ok (some r)) :
    r.sentiment_score = round3 (score (classificationText a)) ∧
    r.sentiment_label = sentimentLabel (score (classificationText a)) := by
  obtain ⟨hr, -⟩ := processArticle_eq_ok_some h
  subst hr
  exact ⟨rfl, rfl⟩

/-- Witness for C2 (amended) at a concrete article and scorer. -/
theorem c2_rounding_and_bucketing_witness :
    (analyzeArticle cScoreA cArticleA).sentiment_score =
      round3 (cScoreA (classificationText cArticleA)) ∧
    (analyzeArticle cScoreA cArticleA).sentiment_label =
      sentimentLabel (cScoreA (classificationText cArticleA)) :=
  c2_rounding_and_bucketing cScoreA cArticleA (analyzeArticle cScoreA cArticleA) rfl

/-- C3: on every successful run, every analyzed article has a truthy
(non-empty) title, and the ResultSet length equals the number of input
articles with a truthy title. -/
theorem c3_title_filter (score : String → ℚ) (data : GNewsData)
    (out : PipelineOutput)
    (h : fetch_and_analyze_news score (.ok data) = .ok out) :
    out.resultSet.all titleTruthy = true ∧
    out.resultSet.length =
      ((data.articles.getD []).filter rawTitleTruthy).length := by
  have hr := fetch_ok_resultSet h
  rw [hr]
  refine ⟨?_, by simp⟩
  simp only [List.all_eq_true, List.mem_map, List.mem_filter]
  rintro r ⟨a, ⟨-, ha⟩, rfl⟩
  rw [titleTruthy_analyzeArticle]
  exact ha

/-- Witness for C3 on a two-article response with one untitled article. -/
theorem c3_title_filter_witness :
    (PipelineOutput.mk [analyzeArticle wScore wArticleT] none).resultSet.all
      titleTruthy = true ∧
    (PipelineOutput.mk [analyzeArticle wScore wArticleT] none).resultSet.length =
      ((wData.articles.getD []).filter rawTitleTruthy).length :=
  c3_title_filter wScore wData ⟨[analyzeArticle wScore wArticleT], none⟩ rfl

/-- C4: every exception in the fetch phase is recovered locally in a single
attempt, producing an empty ResultSet and an error-level diagnostic that
carries the underlying message. -/
theorem c4_transport_failure (score : String → ℚ) (msg : String) :
    fetch_and_analyze_news score (.exc msg) =
      .ok ⟨[], some (.error ("Error fetching news: " ++ msg))⟩ := rfl

/-- C5: when the "articles" field is absent or an empty list, the pipeline
returns an empty ResultSet with the distinct "no results" warning, not the
error diagnostic. -/
theorem c5_no_articles (score : String → ℚ) (data : GNewsData)
    (h : data.articles = none ∨ data.articles = some []) :
    fetch_and_analyze_news score (.ok data) =
      .ok ⟨[], some (.warning "No articles found for this query.")⟩ := by
  rcases h with h | h <;> simp [fetch_and_analyze_news, h]

/-- Witness for C5 with an absent "articles" field. -/
theorem c5_no_articles_witness :
    fetch_and_analyze_news wScore (.ok ⟨none⟩) =
      .ok ⟨[], some (.warning "No articles found for this query.")⟩ :=
  c5_no_articles wScore ⟨none⟩ (Or.inl rfl)

/-- C6: on every successful run, the ResultSet is exactly the in-order image
of the raw article list restricted to the articles surviving the title
filter. -/
theorem c6_order_preservation (score : String → ℚ) (data : GNewsData)
    (out : PipelineOutput)
    (h : fetch_and_analyze_news score (.ok data) = .ok out) :
    out.resultSet =
      ((data.articles.getD []).filter rawTitleTruthy).map (analyzeArticle score) :=
  fetch_ok_resultSet h

/-- Witness for C6 on a two-article response with one untitled article. -/
theorem c6_order_preservation_witness :
    (PipelineOutput.mk [analyzeArticle wScore wArticleT] none).resultSet =
      ((wData.articles.getD []).filter rawTitleTruthy).map (analyzeArticle wScore) :=
  c6_order_preservation wScore wData ⟨[analyzeArticle wScore wArticleT], none⟩ rfl

/-- C7: for every article that reaches classification, the scorer input is
the title and description joined by a single space and stripped of leading
and trailing whitespace, a missing description being treated as "". -/
theorem c7_classification_input (score : String → ℚ) (a : RawArticle)
    (t d : String) (ht : a.title = some (.pyStr t))
    (hd : a.description = none ∧ d = "" ∨ a.description = some (.pyStr d))
    (r : AnalyzedArticle) (h : processArticle score a = .ok (some r)) :
    classificationText a = pyStrip (t ++ " " ++ d) ∧
    r.sentiment_score = round3 (score (pyStrip (t ++ " " ++ d))) ∧
    r.sentiment_label = sentimentLabel (score (pyStrip (t ++ " " ++ d))) := by
  have htext : classificationText a = pyStrip (t ++ " " ++ d) := by
    rcases hd with ⟨hd, rfl⟩ | hd <;>
      simp [classificationText, ht, hd, dictGetStr, pyFormat]
  obtain ⟨hr, -⟩ := processArticle_eq_ok_some h
  subst hr
  exact ⟨htext, by rw [← htext]; rfl, by rw [← htext]; rfl⟩

/-- Witness for C7 at a concrete article with a string description. -/
theorem c7_classification_input_witness :
    classificationText wArticleT = pyStrip ("Rain" ++ " " ++ "Heavy rain.") ∧
    (analyzeArticle wScore wArticleT).sentiment_score =
      round3 (wScore (pyStrip ("Rain" ++ " " ++ "Heavy rain."))) ∧
    (analyzeArticle wScore wArticleT).sentiment_label =
      sentimentLabel (wScore (pyStrip ("Rain" ++ " " ++ "Heavy rain."))) :=
  c7_classification_input wScore wArticleT "Rain" "Heavy rain." rfl (Or.inr rfl)
    (analyzeArticle wScore wArticleT) rfl

/-- C8: within one expiry window, a second invocation with the same
(credential, query) key returns the first result without a request, while
an invocation after expiry, or with a different query, issues a request. -/
theorem c8_cache_behaviour {α : Type} (run : String × String → α)
    (key key2 : String × String) (t1 t2 t3 : Nat)
    (h2 : t2 < t1 + cacheTTL) (h3 : t1 + cacheTTL ≤ t3) (hk : key2.2 ≠ key.2) :
    (cachedFetch run [] t1 key).requested = true ∧
    (cachedFetch run (cachedFetch run [] t1 key).entries t2 key).requested = false ∧
    (cachedFetch run (cachedFetch run [] t1 key).entries t2 key).output =
      (cachedFetch run [] t1 key).output ∧
    (cachedFetch run (cachedFetch run [] t1 key).entries t3 key).requested = true ∧
    (cachedFetch run (cachedFetch run [] t1 key).entries t2 key2).requested = true := by
  have hne : (decide (key = key2)) = false := by
    apply decide_eq_false
    intro hEq
    exact hk (by rw [hEq])
  have h3' : ¬ (t3 < t1 + cacheTTL) := by omega
  refine ⟨rfl, ?_, ?_, ?_, ?_⟩ <;>
    simp [cachedFetch, List.find?, hne, h2, h3']

/-- Witness for C8 at concrete keys and times around the 600-second window. -/
theorem c8_cache_behaviour_witness :
    (cachedFetch wRun [] 0 ("key", "q")).requested = true ∧
    (cachedFetch wRun (cachedFetch wRun [] 0 ("key", "q")).entries 599
      ("key", "q")).requested = false ∧
    (cachedFetch wRun (cachedFetch wRun [] 0 ("key", "q")).entries 599
      ("key", "q")).output = (cachedFetch wRun [] 0 ("key", "q")).output ∧
    (cachedFetch wRun (cachedFetch wRun [] 0 ("key", "q")).entries 600
      ("key", "q")).requested = true ∧
    (cachedFetch wRun (cachedFetch wRun [] 0 ("key", "q")).entries 599
      ("key", "other")).requested = true :=
  c8_cache_behaviour wRun ("key", "q") ("key", "other") 0 599 600
    (by norm_num [cacheTTL]) (by norm_num [cacheTTL]) (by decide)

/-- C9: a well-formed response with an article whose "source" field is
present but JSON null makes the pipeline raise an uncaught AttributeError
(the whole run ends in an error that the error branch does not capture). -/
theorem c9_null_source_raises :
    fetch_and_analyze_news wScore (.ok ⟨some [cArticleNullSource]⟩) =
      .error "AttributeError: NoneType object has no attribute get" := rfl

/-- C10: an article whose "description" field is present but JSON null is
scored on the title followed by a space and the literal word "None", not on
the title with an empty description. -/
theorem c10_null_description_text :
    classificationText cArticleNullDesc = "Breaking News None" ∧
    classificationText cArticleNullDesc ≠ pyStrip ("Breaking News" ++ " " ++ "") ∧
    fetch_and_analyze_news cScoreB (.ok ⟨some [cArticleNullDesc]⟩) =
      .ok ⟨[⟨.pyStr "Breaking News", .pyStr "Unknown", round3 (1/2),
        sentimentLabel (1/2), .pyStr ""⟩], none⟩ := by
  refine ⟨rfl, by decide, rfl⟩
